import Mathlib

/-!
Shallow embedding of the Salesforce Bulk API 2.0 client
(`custom_simple_salesforce`: `bulk.py`, `bulk_job.py`, `types.py`).

Network effects are made explicit: every operation returns the list of
HTTP requests it issues, and server responses (parsed JSON job-info
dictionaries, CSV body text) are passed in as arguments.  Python dicts
are modelled as insertion-ordered association lists, Python scalar
values by `PyVal`, and raised exceptions by `Except PyErr`.
-/

namespace CSS

/-- A Python runtime value as it appears in job-info dictionaries. -/
inductive PyVal where
  | vNone : PyVal
  | vStr : String → PyVal
  | vInt : Int → PyVal
deriving DecidableEq, Repr

/-- A Python exception: `ValueError`, `TypeError` or `KeyError`. -/
inductive PyErr where
  | valueError : String → PyErr
  | typeError : String → PyErr
  | keyError : String → PyErr
deriving DecidableEq, Repr

instance {ε α : Type} [DecidableEq ε] [DecidableEq α] : DecidableEq (Except ε α) := fun
  | Except.ok a, Except.ok b =>
      if h : a = b then Decidable.isTrue (by rw [h])
      else Decidable.isFalse (fun hc => h (Except.ok.inj hc))
  | Except.error e, Except.error f =>
      if h : e = f then Decidable.isTrue (by rw [h])
      else Decidable.isFalse (fun hc => h (Except.error.inj hc))
  | Except.ok _, Except.error _ => Decidable.isFalse (fun hc => Except.noConfusion hc)
  | Except.error _, Except.ok _ => Decidable.isFalse (fun hc => Except.noConfusion hc)

/-- A job-info dictionary (`dict[str, Any]`): insertion-ordered keyed list. -/
abbrev JobInfo := List (String × PyVal)

/-- `d.get(k)` on a Python dict: first binding of the key, if any. -/
def pyLookup (d : JobInfo) (k : String) : Option PyVal :=
  (d.find? (fun p => p.1 == k)).map (fun p => p.2)

/-- `d[k]` on a Python dict: raises `KeyError` when the key is absent. -/
def pyGetItem (d : JobInfo) (k : String) : Except PyErr PyVal :=
  match pyLookup d k with
  | some v => Except.ok v
  | none => Except.error (PyErr.keyError k)

/-- `d[k] = v` on an insertion-ordered dict: overwrite in place if the key
exists, else append at the end. -/
def dictSet {α : Type} (d : List (String × α)) (k : String) (v : α) :
    List (String × α) :=
  if d.any (fun p => p.1 == k) then
    d.map (fun p => if p.1 == k then (k, v) else p)
  else
    d ++ [(k, v)]

/-- `d.update(os)` on a Python dict: set each binding of `os` in order. -/
def dictUpdate {α : Type} (d os : List (String × α)) : List (String × α) :=
  os.foldl (fun acc p => dictSet acc p.1 p.2) d

/-- Digits of a decimal literal to the number they denote. -/
def digitsToNat (ds : List Char) : Nat :=
  ds.foldl (fun a c => a * 10 + (c.toNat - ('0').toNat)) 0

/-- Python whitespace as stripped by `int(str)`. -/
def pyIsSpace (c : Char) : Bool :=
  c = ' ' ∨ c = '\t' ∨ c = '\n' ∨ c = '\r' ∨ c = '\x0b' ∨ c = '\x0c'

/-- `s.strip()` for the whitespace handling of `int(str)`. -/
def pyStrip (s : String) : List Char :=
  ((s.data.dropWhile pyIsSpace).reverse.dropWhile pyIsSpace).reverse

/-- Python `int(s)` on a string: strip whitespace, optional sign, then a
nonempty run of decimal digits; anything else fails.  (Underscore digit
separators of Python 3.6+ are not modelled.) -/
def pyStrToInt (s : String) : Option Int :=
  match pyStrip s with
  | [] => none
  | '+' :: ds =>
      if ds ≠ [] ∧ ds.all Char.isDigit then some (digitsToNat ds) else none
  | '-' :: ds =>
      if ds ≠ [] ∧ ds.all Char.isDigit then some (-(digitsToNat ds : Int)) else none
  | ds =>
      if ds.all Char.isDigit then some (digitsToNat ds) else none

/-- Python `int(v)`: identity on ints, decimal parse on strings
(`ValueError` on failure), `TypeError` on `None`. -/
def pyToInt : PyVal → Except PyErr Int
  | PyVal.vInt n => Except.ok n
  | PyVal.vStr s =>
      match pyStrToInt s with
      | some n => Except.ok n
      | none =>
          Except.error (PyErr.valueError
            ("invalid literal for int() with base 10: \x27" ++ s ++ "\x27"))
  | PyVal.vNone =>
      Except.error (PyErr.typeError
        "int() argument must be a string, a bytes-like object or a real number, not \x27NoneType\x27")

/-- Truthiness of a Python `str | None` value: `None` and `""` are falsy. -/
def pyTruthyOptStr : Option String → Bool
  | none => false
  | some s => s ≠ ""

/-- Reversed field characters to the field string. -/
def fieldStr (field : List Char) : String :=
  String.mk field.reverse

/-- Core loop of `csv.reader` (default dialect): one character at a time,
tracking quote mode, whether the current record has consumed any
character (a record with none becomes the empty record, as for a blank
line), the current field (reversed), the current record (reversed) and
the finished records (reversed). -/
def csvAux : Bool → Bool → List Char → List String → List (List String) →
    List Char → List (List String)
  | _, started, field, rec, acc, [] =>
      if started then (((fieldStr field :: rec).reverse) :: acc).reverse
      else acc.reverse
  | true, _, field, rec, acc, '"' :: '"' :: cs =>
      csvAux true true ('"' :: field) rec acc cs
  | true, _, field, rec, acc, '"' :: cs =>
      csvAux false true field rec acc cs
  | true, _, field, rec, acc, c :: cs =>
      csvAux true true (c :: field) rec acc cs
  | false, _, field, rec, acc, ',' :: cs =>
      csvAux false true [] (fieldStr field :: rec) acc cs
  | false, started, field, rec, acc, '\r' :: '\n' :: cs =>
      csvAux false false [] []
        ((if started then (fieldStr field :: rec).reverse else []) :: acc) cs
  | false, started, field, rec, acc, '\n' :: cs =>
      csvAux false false [] []
        ((if started then (fieldStr field :: rec).reverse else []) :: acc) cs
  | false, started, field, rec, acc, '\r' :: cs =>
      csvAux false false [] []
        ((if started then (fieldStr field :: rec).reverse else []) :: acc) cs
  | false, _, field, rec, acc, '"' :: cs =>
      if field = [] then csvAux true true field rec acc cs
      else csvAux false true ('"' :: field) rec acc cs
  | false, _, field, rec, acc, c :: cs =>
      csvAux false true (c :: field) rec acc cs

/-- `list(csv.reader(io.StringIO(s)))`: all records of the CSV text. -/
def csvParse (s : String) : List (List String) :=
  csvAux false false [] [] [] s.data

/-- `dict(zip(fieldnames, row))` with `restval = None` padding for short
rows, insertion order and duplicate-header last-value-wins as for a
Python dict.  (Overflow cells of rows longer than the header, which
`csv.DictReader` collects under the `None` rest key, are not modelled.) -/
def rowToDict (header row : List String) : List (String × Option String) :=
  let pairs :=
    (header.zip row).map (fun p => (p.1, some p.2)) ++
      (header.drop row.length).map (fun k => (k, (none : Option String)))
  pairs.foldl (fun acc p => dictSet acc p.1 p.2) []

/-- `list(csv.DictReader(io.StringIO(s)))`: first record gives the field
names, blank rows are skipped, each remaining row becomes a dict. -/
def dictReaderParse (s : String) : List (List (String × Option String)) :=
  match csvParse s with
  | [] => []
  | header :: rows =>
      (rows.filter (fun r => r ≠ [])).map (fun r => rowToDict header r)

/-- The body of an HTTP request: none, a JSON object of string fields, or
raw uploaded text (`csv_data.encode("utf-8")`, modelled by its text). -/
inductive Body where
  | noBody : Body
  | jsonBody : List (String × String) → Body
  | rawBody : String → Body
deriving DecidableEq, Repr

/-- One HTTP request as handed to `requests.request` by `_make_request`. -/
structure Request where
  method : String
  url : String
  headers : List (String × String)
  timeout : Nat
  body : Body
deriving DecidableEq, Repr

/-- The `SfBulk` client state: base URL and default headers taken from the
`Sf` client, default polling interval and request timeout. -/
structure SfBulk where
  bulk2_url : String
  headers : List (String × String)
  _interval : Nat
  _timeout : Nat
deriving DecidableEq, Repr

/-- `SfBulk.__init__(sf, interval=5, timeout=30)`; the `Sf` collaborator is
represented by the two values the constructor reads from it. -/
def SfBulk.init (sf_bulk2_url : String) (sf_headers : List (String × String))
    (interval : Nat := 5) (timeout : Nat := 30) : SfBulk :=
  ⟨sf_bulk2_url, sf_headers, interval, timeout⟩

/-- `copy.deepcopy` on an immutable value model: an equal, independent
value. -/
def deepcopy {α : Type} (a : α) : α := a

/-- `SfBulk._make_request`: build the final headers from a deep copy of the
shared defaults, overlaid with the per-call headers when given, and issue
one request against `bulk2_url ++ endpoint`.  Returns the client as left
by the call (unchanged: only the copy is written) and the request. -/
def _make_request (c : SfBulk) (method endpoint : String)
    (headers : Option (List (String × String))) (body : Body) :
    SfBulk × Request :=
  let final_headers := deepcopy c.headers
  let final_headers :=
    match headers with
    | some hs => if hs ≠ [] then dictUpdate final_headers hs else final_headers
    | none => final_headers
  (c,
    { method := method
      url := c.bulk2_url ++ endpoint
      headers := final_headers
      timeout := c._timeout
      body := body })

/-- `get_args(FormatType.__value__)`: the literals of `FormatType`. -/
def allowed_formats : List String := ["dict", "reader", "csv"]

/-- `", ".join(xs)`. -/
def joinComma : List String → String
  | [] => ""
  | [x] => x
  | x :: xs => x ++ ", " ++ joinComma xs

/-- The result of a result-fetching call (`ResultType` of `types.py`):
a list of dicts, a list of rows, or the raw CSV string. -/
inductive ResultType where
  | records : List (List (String × Option String)) → ResultType
  | rows : List (List String) → ResultType
  | raw : String → ResultType
deriving DecidableEq, Repr

/-- `SfBulk._get_csv_results(endpoint, format_type)`: validate the format
against `allowed_formats` before any request; on success issue one GET for
the endpoint (its decoded text is the argument `responseText`) and decode
per format.  Paired with the list of requests issued. -/
def _get_csv_results (c : SfBulk) (endpoint format_type : String)
    (responseText : String) :
    Except PyErr (SfBulk × ResultType) × List Request :=
  if ¬ (allowed_formats.contains format_type) then
    (Except.error (PyErr.valueError
      ("Unsupported format: \x27" ++ format_type ++ "\x27. " ++
        "Allowed formats are: " ++ joinComma allowed_formats)), [])
  else
    let (c2, req) := _make_request c "GET" endpoint none Body.noBody
    match format_type with
    | "dict" => (Except.ok (c2, ResultType.records (dictReaderParse responseText)), [req])
    | "reader" => (Except.ok (c2, ResultType.rows (csvParse responseText)), [req])
    | "csv" => (Except.ok (c2, ResultType.raw responseText), [req])
    | _ => (Except.error (PyErr.valueError "Internal error: Unsupported format."), [req])

/-- `SfBulk._get_final_interval(interval)`: the per-call interval, or the
client default when the per-call interval is `None`. -/
def _get_final_interval (c : SfBulk) (interval : Option Nat) : Nat :=
  match interval with
  | some i => i
  | none => c._interval

/-- Python `str(v)` as used when a value is interpolated into an f-string. -/
def pyStr : PyVal → String
  | PyVal.vStr s => s
  | PyVal.vInt n => toString n
  | PyVal.vNone => "None"

/-- A query job handle (`SfBulkJobQuery` of `bulk_job.py`): the client, the
job id (`job_info["id"]`, modelled by its string rendering) and the cached
last-known job info. -/
structure SfBulkJobQuery where
  _sf_bulk : SfBulk
  id : String
  _info : JobInfo
deriving DecidableEq, Repr

/-- An ingest job handle (`SfBulkJob` of `bulk_job.py`): same fields as the
query handle, via the shared `_SfBulkJobBase.__init__`. -/
structure SfBulkJob where
  _sf_bulk : SfBulk
  id : String
  _info : JobInfo
deriving DecidableEq, Repr

/-- `_SfBulkJobBase.__init__` for a query handle: reads `job_info["id"]`
(`KeyError` when absent) and caches the whole creation response. -/
def SfBulkJobQuery.ofResponse (sf_bulk : SfBulk) (job_info : JobInfo) :
    Except PyErr SfBulkJobQuery :=
  match pyGetItem job_info "id" with
  | Except.error e => Except.error e
  | Except.ok v => Except.ok ⟨sf_bulk, pyStr v, job_info⟩

/-- `_SfBulkJobBase.__init__` for an ingest handle. -/
def SfBulkJob.ofResponse (sf_bulk : SfBulk) (job_info : JobInfo) :
    Except PyErr SfBulkJob :=
  match pyGetItem job_info "id" with
  | Except.error e => Except.error e
  | Except.ok v => Except.ok ⟨sf_bulk, pyStr v, job_info⟩

/-- `self.info` property of a handle: the cached last-known job info. -/
def SfBulkJob.info (h : SfBulkJob) : JobInfo := h._info

/-- `self.info` property of a query handle. -/
def SfBulkJobQuery.info (h : SfBulkJobQuery) : JobInfo := h._info

/-- The terminal-state list of the polling loops, in source order:
`["Aborted", "JobComplete", "Failed"]`. -/
def terminal_states : List PyVal :=
  [PyVal.vStr "Aborted", PyVal.vStr "JobComplete", PyVal.vStr "Failed"]

/-- Outcome of a polling loop run against a finite trace of server
snapshots: a terminal snapshot (with the status requests issued and the
sleep durations between them), a raised exception, or exhaustion of the
trace without a terminal state (the loop would still be running). -/
inductive PollResult where
  | done : JobInfo → List Request → List Nat → PollResult
  | raised : PyErr → List Request → PollResult
  | diverges : List Request → PollResult
deriving DecidableEq, Repr

/-- The `while True` body shared by `poll_job` and `poll_job_query`: issue
the status request, read `_job_info["state"]`, stop on a terminal state,
else sleep for the final interval and repeat on the rest of the trace. -/
def pollLoop (statusReq : Request) (ival : Nat) : List JobInfo → PollResult
  | [] => PollResult.diverges []
  | info :: rest =>
      match pyGetItem info "state" with
      | Except.error e => PollResult.raised e [statusReq]
      | Except.ok v =>
          if terminal_states.contains v then PollResult.done info [statusReq] []
          else
            match pollLoop statusReq ival rest with
            | PollResult.done f rs ss => PollResult.done f (statusReq :: rs) (ival :: ss)
            | PollResult.raised e rs => PollResult.raised e (statusReq :: rs)
            | PollResult.diverges rs => PollResult.diverges (statusReq :: rs)

/-- `SfBulk.create_job_query(query, include_all=False)`: POST to `query`
with operation `"query"` (plus `"All"` when `include_all`), then wrap the
response in a query handle. -/
def create_job_query (c : SfBulk) (query : String) (include_all : Bool)
    (resp : JobInfo) : Except PyErr (SfBulk × SfBulkJobQuery) × List Request :=
  let _operation := "query" ++ (if include_all then "All" else "")
  let (c2, req) := _make_request c "POST" "query" none
    (Body.jsonBody [("operation", _operation), ("query", query)])
  match SfBulkJobQuery.ofResponse c2 resp with
  | Except.error e => (Except.error e, [req])
  | Except.ok h => (Except.ok (c2, h), [req])

/-- `SfBulk.get_job_query_info(job_id)`: one GET to `query/{job_id}`,
returning the response JSON. -/
def get_job_query_info (c : SfBulk) (job_id : String) (resp : JobInfo) :
    (SfBulk × JobInfo) × List Request :=
  let (c2, req) := _make_request c "GET" ("query/" ++ job_id) none Body.noBody
  ((c2, resp), [req])

/-- `SfBulk.poll_job_query(job_id, interval=None)`: loop on
`get_job_query_info` until the state is terminal, sleeping for the final
interval between consecutive status calls. -/
def poll_job_query (c : SfBulk) (job_id : String) (states : List JobInfo)
    (interval : Option Nat) : SfBulk × PollResult :=
  let statusReq := (_make_request c "GET" ("query/" ++ job_id) none Body.noBody).2
  (c, pollLoop statusReq (_get_final_interval c interval) states)

/-- `SfBulk.get_job_query_results(job_id, format_type="dict")`. -/
def get_job_query_results (c : SfBulk) (job_id format_type : String)
    (responseText : String) : Except PyErr (SfBulk × ResultType) × List Request :=
  _get_csv_results c ("query/" ++ job_id ++ "/results") format_type responseText

/-- `SfBulk.create_job(object_name, operation, external_id_field=None)`:
local upsert validation before any request, then POST the payload to
`ingest` and wrap the response in an ingest handle. -/
def create_job (c : SfBulk) (object_name operation : String)
    (external_id_field : Option String) (resp : JobInfo) :
    Except PyErr (SfBulk × SfBulkJob) × List Request :=
  if operation == "upsert" ∧ ¬ pyTruthyOptStr external_id_field then
    (Except.error (PyErr.valueError
      "The \x27external_id_field\x27 is required for the \x27upsert\x27 operation."), [])
  else
    let _payload := [("object", object_name), ("operation", operation)]
    let _payload :=
      if pyTruthyOptStr external_id_field then
        dictSet _payload "externalIdFieldName" (external_id_field.getD "")
      else _payload
    let (c2, req) := _make_request c "POST" "ingest" none (Body.jsonBody _payload)
    match SfBulkJob.ofResponse c2 resp with
    | Except.error e => (Except.error e, [req])
    | Except.ok h => (Except.ok (c2, h), [req])

/-- `SfBulk.create_job_insert(object_name)`. -/
def create_job_insert (c : SfBulk) (object_name : String) (resp : JobInfo) :
    Except PyErr (SfBulk × SfBulkJob) × List Request :=
  create_job c object_name "insert" none resp

/-- `SfBulk.create_job_update(object_name)`. -/
def create_job_update (c : SfBulk) (object_name : String) (resp : JobInfo) :
    Except PyErr (SfBulk × SfBulkJob) × List Request :=
  create_job c object_name "update" none resp

/-- `SfBulk.create_job_upsert(object_name, external_id_field)`. -/
def create_job_upsert (c : SfBulk) (object_name external_id_field : String)
    (resp : JobInfo) : Except PyErr (SfBulk × SfBulkJob) × List Request :=
  create_job c object_name "upsert" (some external_id_field) resp

/-- `SfBulk.create_job_delete(object_name)`. -/
def create_job_delete (c : SfBulk) (object_name : String) (resp : JobInfo) :
    Except PyErr (SfBulk × SfBulkJob) × List Request :=
  create_job c object_name "delete" none resp

/-- `SfBulk.create_job_hard_delete(object_name)`. -/
def create_job_hard_delete (c : SfBulk) (object_name : String) (resp : JobInfo) :
    Except PyErr (SfBulk × SfBulkJob) × List Request :=
  create_job c object_name "hardDelete" none resp

/-- `SfBulk.upload_job_data(job_id, csv_data)`: PUT the raw CSV bytes to
`ingest/{job_id}/batches` with a per-call `Content-Type: text/csv`. -/
def upload_job_data (c : SfBulk) (job_id csv_data : String) :
    SfBulk × List Request :=
  let (c2, req) := _make_request c "PUT" ("ingest/" ++ job_id ++ "/batches")
    (some [("Content-Type", "text/csv")]) (Body.rawBody csv_data)
  (c2, [req])

/-- `SfBulk.uploaded_job(job_id)`: PATCH `ingest/{job_id}` with
`{"state": "UploadComplete"}`. -/
def uploaded_job (c : SfBulk) (job_id : String) : SfBulk × List Request :=
  let (c2, req) := _make_request c "PATCH" ("ingest/" ++ job_id) none
    (Body.jsonBody [("state", "UploadComplete")])
  (c2, [req])

/-- `SfBulk.get_job_info(job_id)`: one GET to `ingest/{job_id}`. -/
def get_job_info (c : SfBulk) (job_id : String) (resp : JobInfo) :
    (SfBulk × JobInfo) × List Request :=
  let (c2, req) := _make_request c "GET" ("ingest/" ++ job_id) none Body.noBody
  ((c2, resp), [req])

/-- `SfBulk.poll_job(job_id, interval=None)`: loop on `get_job_info` until
the state is terminal, sleeping for the final interval between
consecutive status calls. -/
def poll_job (c : SfBulk) (job_id : String) (states : List JobInfo)
    (interval : Option Nat) : SfBulk × PollResult :=
  let statusReq := (_make_request c "GET" ("ingest/" ++ job_id) none Body.noBody).2
  (c, pollLoop statusReq (_get_final_interval c interval) states)

/-- `SfBulk.get_ingest_successful_results(job_id, format_type="dict")`. -/
def get_ingest_successful_results (c : SfBulk) (job_id format_type : String)
    (responseText : String) : Except PyErr (SfBulk × ResultType) × List Request :=
  _get_csv_results c ("ingest/" ++ job_id ++ "/successfulResults") format_type responseText

/-- `SfBulk.get_ingest_failed_results(job_id, format_type="dict")`. -/
def get_ingest_failed_results (c : SfBulk) (job_id format_type : String)
    (responseText : String) : Except PyErr (SfBulk × ResultType) × List Request :=
  _get_csv_results c ("ingest/" ++ job_id ++ "/failedResults") format_type responseText

/-- `SfBulk.get_ingest_unprocessed_records(job_id, format_type="dict")`. -/
def get_ingest_unprocessed_records (c : SfBulk) (job_id format_type : String)
    (responseText : String) : Except PyErr (SfBulk × ResultType) × List Request :=
  _get_csv_results c ("ingest/" ++ job_id ++ "/unprocessedrecords") format_type responseText

/-- Modelled from the spec: `bulk_job.py` and `sample/bulk.py` use a query
method group `sf_bulk.query` whose definition is absent from src/; per
spec §4.1/§9 its status operation `get_info` is the flat client status
operation for the query family, `get_job_query_info`. -/
def SfBulk.query_get_info (c : SfBulk) (job_id : String) (resp : JobInfo) :
    (SfBulk × JobInfo) × List Request :=
  get_job_query_info c job_id resp

/-- Modelled from the spec: the query method group's `wait` is the flat
client wait loop for the query family, `poll_job_query`. -/
def SfBulk.query_wait (c : SfBulk) (job_id : String) (states : List JobInfo)
    (interval : Option Nat) : SfBulk × PollResult :=
  poll_job_query c job_id states interval

/-- Modelled from the spec: the ingest method group's `get_info` is the
flat client status operation for the ingest family, `get_job_info`. -/
def SfBulk.ingest_get_info (c : SfBulk) (job_id : String) (resp : JobInfo) :
    (SfBulk × JobInfo) × List Request :=
  get_job_info c job_id resp

/-- Modelled from the spec: the ingest method group's `wait` is the flat
client wait loop for the ingest family, `poll_job`. -/
def SfBulk.ingest_wait (c : SfBulk) (job_id : String) (states : List JobInfo)
    (interval : Option Nat) : SfBulk × PollResult :=
  poll_job c job_id states interval

/-- `SfBulkJobQuery.get_info()`: call the client status operation, replace
the cached info with the fresh snapshot, return it.  Paired with the
requests the call issued. -/
def SfBulkJobQuery.get_info (h : SfBulkJobQuery) (resp : JobInfo) :
    (SfBulkJobQuery × JobInfo) × List Request :=
  let ((_, fresh), reqs) := SfBulk.query_get_info h._sf_bulk h.id resp
  (({ h with _info := fresh }, fresh), reqs)

/-- `SfBulkJobQuery.wait(interval=None)`: call the client wait loop; when
it returns a terminal snapshot, replace the cache with it and return it;
on an exception or a non-returning loop the cache is untouched. -/
def SfBulkJobQuery.wait (h : SfBulkJobQuery) (states : List JobInfo)
    (interval : Option Nat) : SfBulkJobQuery × PollResult :=
  match (SfBulk.query_wait h._sf_bulk h.id states interval).2 with
  | PollResult.done f rs ss => ({ h with _info := f }, PollResult.done f rs ss)
  | r => (h, r)

/-- `SfBulkJob.get_info()`: ingest-family analogue of the query handle's
`get_info`. -/
def SfBulkJob.get_info (h : SfBulkJob) (resp : JobInfo) :
    (SfBulkJob × JobInfo) × List Request :=
  let ((_, fresh), reqs) := SfBulk.ingest_get_info h._sf_bulk h.id resp
  (({ h with _info := fresh }, fresh), reqs)

/-- `SfBulkJob.wait(interval=None)`: ingest-family analogue of the query
handle's `wait`. -/
def SfBulkJob.wait (h : SfBulkJob) (states : List JobInfo)
    (interval : Option Nat) : SfBulkJob × PollResult :=
  match (SfBulk.ingest_wait h._sf_bulk h.id states interval).2 with
  | PollResult.done f rs ss => ({ h with _info := f }, PollResult.done f rs ss)
  | r => (h, r)

/-- `SfBulkJob.is_successful()`: cached state equals `"JobComplete"`. -/
def SfBulkJob.is_successful (h : SfBulkJob) : Bool :=
  pyLookup h.info "state" == some (PyVal.vStr "JobComplete")

/-- `SfBulkJob.is_failed()`: cached state equals `"Failed"`. -/
def SfBulkJob.is_failed (h : SfBulkJob) : Bool :=
  pyLookup h.info "state" == some (PyVal.vStr "Failed")

/-- `SfBulkJob.is_aborted()`: cached state equals `"Aborted"`. -/
def SfBulkJob.is_aborted (h : SfBulkJob) : Bool :=
  pyLookup h.info "state" == some (PyVal.vStr "Aborted")

/-- `SfBulkJob.has_failed_records()`:
`int(self.info.get("numberRecordsFailed", 0)) > 0`, with the `int`
conversion able to raise. -/
def SfBulkJob.has_failed_records (h : SfBulkJob) : Except PyErr Bool :=
  match pyToInt ((pyLookup h.info "numberRecordsFailed").getD (PyVal.vInt 0)) with
  | Except.ok n => Except.ok (decide (n > 0))
  | Except.error e => Except.error e

/-- The membership test of the polling loops on one snapshot:
`_job_info["state"] in ["Aborted", "JobComplete", "Failed"]`, able to
raise `KeyError` when the snapshot has no `state` key. -/
def infoTerminal (info : JobInfo) : Except PyErr Bool :=
  (pyGetItem info "state").map (fun v => terminal_states.contains v)

/-- One client operation together with its inputs (server responses
included), for stating frame properties over arbitrary call sequences. -/
inductive BulkOp where
  | opCreateJobQuery : String → Bool → JobInfo → BulkOp
  | opGetJobQueryInfo : String → JobInfo → BulkOp
  | opPollJobQuery : String → List JobInfo → Option Nat → BulkOp
  | opGetJobQueryResults : String → String → String → BulkOp
  | opCreateJob : String → String → Option String → JobInfo → BulkOp
  | opUploadJobData : String → String → BulkOp
  | opUploadedJob : String → BulkOp
  | opGetJobInfo : String → JobInfo → BulkOp
  | opPollJob : String → List JobInfo → Option Nat → BulkOp
  | opGetIngestSuccessfulResults : String → String → String → BulkOp
  | opGetIngestFailedResults : String → String → String → BulkOp
  | opGetIngestUnprocessedRecords : String → String → String → BulkOp

/-- The client component of a fallible operation result: the returned
client on success, the unchanged one when the call raised. -/
def clientOr (c : SfBulk) {α : Type} : Except PyErr (SfBulk × α) → SfBulk
  | Except.ok (c2, _) => c2
  | Except.error _ => c

/-- The client state as an operation leaves it (on an exception the client
is whatever it was when the exception was raised). -/
def applyOp (c : SfBulk) : BulkOp → SfBulk
  | BulkOp.opCreateJobQuery q ia resp => clientOr c (create_job_query c q ia resp).1
  | BulkOp.opGetJobQueryInfo jid resp => (get_job_query_info c jid resp).1.1
  | BulkOp.opPollJobQuery jid states ival => (poll_job_query c jid states ival).1
  | BulkOp.opGetJobQueryResults jid fmt text =>
      clientOr c (get_job_query_results c jid fmt text).1
  | BulkOp.opCreateJob obj oper ext resp =>
      clientOr c (create_job c obj oper ext resp).1
  | BulkOp.opUploadJobData jid csv => (upload_job_data c jid csv).1
  | BulkOp.opUploadedJob jid => (uploaded_job c jid).1
  | BulkOp.opGetJobInfo jid resp => (get_job_info c jid resp).1.1
  | BulkOp.opPollJob jid states ival => (poll_job c jid states ival).1
  | BulkOp.opGetIngestSuccessfulResults jid fmt text =>
      clientOr c (get_ingest_successful_results c jid fmt text).1
  | BulkOp.opGetIngestFailedResults jid fmt text =>
      clientOr c (get_ingest_failed_results c jid fmt text).1
  | BulkOp.opGetIngestUnprocessedRecords jid fmt text =>
      clientOr c (get_ingest_unprocessed_records c jid fmt text).1

lemma _get_csv_results_client (c : SfBulk) (ep fmt text : String) :
    clientOr c (_get_csv_results c ep fmt text).1 = c := by
  unfold _get_csv_results
  by_cases h : allowed_formats.contains fmt
  · rw [if_neg (not_not_intro h)]
    simp only [_make_request]
    split <;> rfl
  · rw [if_pos h]
    rfl

lemma applyOp_eq (c : SfBulk) (op : BulkOp) : applyOp c op = c := by
  cases op with
  | opCreateJobQuery q ia resp =>
      show clientOr c (create_job_query c q ia resp).1 = c
      unfold create_job_query
      simp only [_make_request]
      split <;> rfl
  | opGetJobQueryInfo jid resp => rfl
  | opPollJobQuery jid states ival => rfl
  | opGetJobQueryResults jid fmt text => exact _get_csv_results_client c _ fmt text
  | opCreateJob obj oper ext resp =>
      show clientOr c (create_job c obj oper ext resp).1 = c
      unfold create_job
      split
      · rfl
      · simp only [_make_request]
        split <;> rfl
  | opUploadJobData jid csv => rfl
  | opUploadedJob jid => rfl
  | opGetJobInfo jid resp => rfl
  | opPollJob jid states ival => rfl
  | opGetIngestSuccessfulResults jid fmt text => exact _get_csv_results_client c _ fmt text
  | opGetIngestFailedResults jid fmt text => exact _get_csv_results_client c _ fmt text
  | opGetIngestUnprocessedRecords jid fmt text => exact _get_csv_results_client c _ fmt text

lemma foldl_applyOp (c : SfBulk) (ops : List BulkOp) :
    ops.foldl applyOp c = c := by
  induction ops with
  | nil => rfl
  | cons op ops ih => simpa [applyOp_eq] using ih

lemma pollLoop_first_terminal (req : Request) (ival : Nat)
    (ns : List JobInfo) (t : JobInfo) (rest : List JobInfo)
    (hns : ∀ i ∈ ns, infoTerminal i = Except.ok false)
    (ht : infoTerminal t = Except.ok true) :
    pollLoop req ival (ns ++ t :: rest)
      = PollResult.done t (List.replicate (ns.length + 1) req)
          (List.replicate ns.length ival) := by
  induction ns with
  | nil =>
      cases hg : pyGetItem t "state" with
      | error e =>
          rw [infoTerminal, hg] at ht
          exact absurd ht (by simp [Except.map])
      | ok v =>
          simp only [infoTerminal, hg, Except.map, Except.ok.injEq] at ht
          simp only [List.nil_append, pollLoop, hg]
          rw [if_pos ht]
          rfl
  | cons i ns ih =>
      have hi := hns i (List.mem_cons_self i ns)
      have hns' : ∀ j ∈ ns, infoTerminal j = Except.ok false :=
        fun j hj => hns j (List.mem_cons_of_mem i hj)
      cases hg : pyGetItem i "state" with
      | error e =>
          rw [infoTerminal, hg] at hi
          exact absurd hi (by simp [Except.map])
      | ok v =>
          simp only [infoTerminal, hg, Except.map, Except.ok.injEq] at hi
          simp only [List.cons_append, pollLoop, hg]
          rw [if_neg (by simpa using hi)]
          simp only [List.append_eq]
          rw [ih hns']
          simp [List.replicate_succ, List.length_cons]

/-- Claim C3 counterexample: with the cached `numberRecordsFailed` bound to
the non-numeric string `abc`, `has_failed_records` does not return false
as the claim states; the `int` conversion raises `ValueError`. -/
theorem C3_counterexample :
    SfBulkJob.has_failed_records
        ⟨SfBulk.init "https://x/" [], "750A",
          [("numberRecordsFailed", PyVal.vStr "abc")]⟩
      = Except.error (PyErr.valueError
          "invalid literal for int() with base 10: \x27abc\x27")
    ∧ SfBulkJob.has_failed_records
        ⟨SfBulk.init "https://x/" [], "750A",
          [("numberRecordsFailed", PyVal.vStr "abc")]⟩
      ≠ Except.ok false := by
  exact ⟨rfl, by decide⟩

/-- Claim C3 (amended): `has_failed_records` returns true iff the cached
`numberRecordsFailed` parses to an integer greater than 0, returns false
when the field is absent or parses to an integer at most 0, and when the
field is present but not convertible to an integer the conversion's
exception propagates instead of a false return. -/
theorem C3_has_failed_records (h : SfBulkJob) :
    (pyLookup h.info "numberRecordsFailed" = none →
      SfBulkJob.has_failed_records h = Except.ok false)
    ∧ (∀ v n, pyLookup h.info "numberRecordsFailed" = some v →
        pyToInt v = Except.ok n →
        SfBulkJob.has_failed_records h = Except.ok (decide (n > 0)))
    ∧ (∀ v e, pyLookup h.info "numberRecordsFailed" = some v →
        pyToInt v = Except.error e →
        SfBulkJob.has_failed_records h = Except.error e) := by
  refine ⟨?_, ?_, ?_⟩
  · intro hnone
    simp only [SfBulkJob.has_failed_records, hnone, Option.getD_none]
    rfl
  · intro v n hv hn
    simp only [SfBulkJob.has_failed_records, hv, Option.getD_some, hn]
  · intro v e hv he
    simp only [SfBulkJob.has_failed_records, hv, Option.getD_some, he]

/-- Claim C3 witness: a handle whose cached `numberRecordsFailed` is the
string `3` reports failed records. -/
theorem C3_witness :
    SfBulkJob.has_failed_records
        ⟨SfBulk.init "https://x/" [], "750A",
          [("numberRecordsFailed", PyVal.vStr "3")]⟩
      = Except.ok (decide ((3 : Int) > 0)) :=
  (C3_has_failed_records _).2.1 (PyVal.vStr "3") 3 rfl rfl

/-- Claim C10: when the cached `numberRecordsFailed` does not convert to an
integer, `has_failed_records` propagates the exception rather than
returning false, and a false return happens only when the key is absent
or the value parses to an integer at most 0. -/
theorem C10_has_failed_records_nonparse (h : SfBulkJob) :
    (∀ v e, pyLookup h.info "numberRecordsFailed" = some v →
        pyToInt v = Except.error e →
        SfBulkJob.has_failed_records h = Except.error e)
    ∧ (SfBulkJob.has_failed_records h = Except.ok false →
        pyLookup h.info "numberRecordsFailed" = none
        ∨ ∃ v n, pyLookup h.info "numberRecordsFailed" = some v
            ∧ pyToInt v = Except.ok n ∧ n ≤ 0) := by
  constructor
  · intro v e hv he
    simp only [SfBulkJob.has_failed_records, hv, Option.getD_some, he]
  · intro hfalse
    cases hv : pyLookup h.info "numberRecordsFailed" with
    | none => exact Or.inl rfl
    | some v =>
        refine Or.inr ?_
        cases hn : pyToInt v with
        | error e =>
            simp only [SfBulkJob.has_failed_records, hv, Option.getD_some, hn] at hfalse
            exact Except.noConfusion hfalse
        | ok n =>
            refine ⟨v, n, rfl, hn, ?_⟩
            simp only [SfBulkJob.has_failed_records, hv, Option.getD_some, hn,
              Except.ok.injEq] at hfalse
            have := of_decide_eq_false hfalse
            omega

/-- Claim C10 witness: a cached `numberRecordsFailed` of `None` makes
`has_failed_records` raise `TypeError` from the `int` conversion. -/
theorem C10_witness :
    SfBulkJob.has_failed_records
        ⟨SfBulk.init "https://y/" [], "750B", [("numberRecordsFailed", PyVal.vNone)]⟩
      = Except.error (PyErr.typeError
          "int() argument must be a string, a bytes-like object or a real number, not \x27NoneType\x27") :=
  (C10_has_failed_records_nonparse _).1 PyVal.vNone _ rfl rfl

/-- Claim C7: on the response text `Name,Industry\nAcme,Tech\n` the three
formats of `_get_csv_results` produce one field-map record, the two raw
rows, and the unchanged text respectively. -/
theorem C7_result_decoder_roundtrip (c : SfBulk) (endpoint : String) :
    _get_csv_results c endpoint "dict" "Name,Industry\nAcme,Tech\n"
      = (Except.ok (c, ResultType.records
            [[("Name", some "Acme"), ("Industry", some "Tech")]]),
          [(_make_request c "GET" endpoint none Body.noBody).2])
    ∧ _get_csv_results c endpoint "reader" "Name,Industry\nAcme,Tech\n"
      = (Except.ok (c, ResultType.rows [["Name", "Industry"], ["Acme", "Tech"]]),
          [(_make_request c "GET" endpoint none Body.noBody).2])
    ∧ _get_csv_results c endpoint "csv" "Name,Industry\nAcme,Tech\n"
      = (Except.ok (c, ResultType.raw "Name,Industry\nAcme,Tech\n"),
          [(_make_request c "GET" endpoint none Body.noBody).2]) :=
  ⟨rfl, rfl, rfl⟩

/-- Claim C4: creating an ingest job with operation `upsert` and an absent
or empty `external_id_field` raises `ValueError` locally, with zero
requests issued; likewise the `create_job_upsert` wrapper on an empty
field name. -/
theorem C4_upsert_missing_external_id (c : SfBulk) (object_name : String)
    (ext : Option String) (resp : JobInfo)
    (hext : ext = none ∨ ext = some "") :
    create_job c object_name "upsert" ext resp
      = (Except.error (PyErr.valueError
          "The \x27external_id_field\x27 is required for the \x27upsert\x27 operation."), [])
    ∧ create_job_upsert c object_name "" resp
      = (Except.error (PyErr.valueError
          "The \x27external_id_field\x27 is required for the \x27upsert\x27 operation."), []) := by
  constructor
  · rcases hext with h | h <;> subst h <;> rfl
  · rfl

/-- Claim C4 witness: concrete upsert creation without an external id
field fails locally with no request issued. -/
theorem C4_witness :
    create_job (SfBulk.init "https://x/" []) "Account" "upsert" none []
      = (Except.error (PyErr.valueError
          "The \x27external_id_field\x27 is required for the \x27upsert\x27 operation."), []) :=
  (C4_upsert_missing_external_id (SfBulk.init "https://x/" []) "Account" none []
    (Or.inl rfl)).1

/-- Claim C5: every result-fetching operation rejects a format outside
`allowed_formats` with a `ValueError` naming the value and the allowed
set, and issues zero requests. -/
theorem C5_unsupported_format (c : SfBulk) (job_id fmt text : String)
    (hfmt : ¬ allowed_formats.contains fmt) :
    (get_job_query_results c job_id fmt text
        = (Except.error (PyErr.valueError
            ("Unsupported format: \x27" ++ fmt ++ "\x27. " ++
              "Allowed formats are: " ++ joinComma allowed_formats)), [])
      ∧ get_ingest_successful_results c job_id fmt text
        = (Except.error (PyErr.valueError
            ("Unsupported format: \x27" ++ fmt ++ "\x27. " ++
              "Allowed formats are: " ++ joinComma allowed_formats)), [])
      ∧ get_ingest_failed_results c job_id fmt text
        = (Except.error (PyErr.valueError
            ("Unsupported format: \x27" ++ fmt ++ "\x27. " ++
              "Allowed formats are: " ++ joinComma allowed_formats)), [])
      ∧ get_ingest_unprocessed_records c job_id fmt text
        = (Except.error (PyErr.valueError
            ("Unsupported format: \x27" ++ fmt ++ "\x27. " ++
              "Allowed formats are: " ++ joinComma allowed_formats)), []))
    ∧ joinComma allowed_formats = "dict, reader, csv" := by
  refine ⟨⟨?_, ?_, ?_, ?_⟩, rfl⟩
  · show _get_csv_results c ("query/" ++ job_id ++ "/results") fmt text = _
    unfold _get_csv_results
    rw [if_pos hfmt]
  · show _get_csv_results c ("ingest/" ++ job_id ++ "/successfulResults") fmt text = _
    unfold _get_csv_results
    rw [if_pos hfmt]
  · show _get_csv_results c ("ingest/" ++ job_id ++ "/failedResults") fmt text = _
    unfold _get_csv_results
    rw [if_pos hfmt]
  · show _get_csv_results c ("ingest/" ++ job_id ++ "/unprocessedrecords") fmt text = _
    unfold _get_csv_results
    rw [if_pos hfmt]

/-- Claim C5 witness: the format `xml` is rejected with the expected
message and no request. -/
theorem C5_witness :
    get_job_query_results (SfBulk.init "https://x/" []) "750E" "xml" "t"
      = (Except.error (PyErr.valueError
          "Unsupported format: \x27xml\x27. Allowed formats are: dict, reader, csv"), []) :=
  (C5_unsupported_format (SfBulk.init "https://x/" []) "750E" "xml" "t"
    (by decide)).1.1

/-- Claim C6: each network operation targets exactly its specified verb
and path: query creation POSTs `query` with operation `query` or
`queryAll`, query status GETs `query/{id}`, query results GETs
`query/{id}/results`, ingest creation POSTs `ingest`, batch upload PUTs
`ingest/{id}/batches`, completion PATCHes `ingest/{id}` with state
`UploadComplete`, ingest status GETs `ingest/{id}`, and the three result
categories GET `ingest/{id}/successfulResults`, `ingest/{id}/failedResults`
and `ingest/{id}/unprocessedrecords`. -/
theorem C6_endpoints (c : SfBulk) (q job_id obj oper csv_data text fmt : String)
    (ext : Option String) (resp : JobInfo)
    (hfmt : fmt ∈ allowed_formats)
    (hop : ¬((oper == "upsert") ∧ ¬ pyTruthyOptStr ext)) :
    (create_job_query c q false resp).2
      = [{ method := "POST", url := c.bulk2_url ++ "query", headers := c.headers,
           timeout := c._timeout,
           body := Body.jsonBody [("operation", "query"), ("query", q)] }]
    ∧ (create_job_query c q true resp).2
      = [{ method := "POST", url := c.bulk2_url ++ "query", headers := c.headers,
           timeout := c._timeout,
           body := Body.jsonBody [("operation", "queryAll"), ("query", q)] }]
    ∧ (get_job_query_info c job_id resp).2
      = [{ method := "GET", url := c.bulk2_url ++ ("query/" ++ job_id),
           headers := c.headers, timeout := c._timeout, body := Body.noBody }]
    ∧ (get_job_query_results c job_id fmt text).2
      = [{ method := "GET", url := c.bulk2_url ++ ("query/" ++ job_id ++ "/results"),
           headers := c.headers, timeout := c._timeout, body := Body.noBody }]
    ∧ (create_job c obj oper ext resp).2.map (fun r => (r.method, r.url))
      = [("POST", c.bulk2_url ++ "ingest")]
    ∧ (upload_job_data c job_id csv_data).2
      = [{ method := "PUT", url := c.bulk2_url ++ ("ingest/" ++ job_id ++ "/batches"),
           headers := dictSet c.headers "Content-Type" "text/csv",
           timeout := c._timeout, body := Body.rawBody csv_data }]
    ∧ (uploaded_job c job_id).2
      = [{ method := "PATCH", url := c.bulk2_url ++ ("ingest/" ++ job_id),
           headers := c.headers, timeout := c._timeout,
           body := Body.jsonBody [("state", "UploadComplete")] }]
    ∧ (get_job_info c job_id resp).2
      = [{ method := "GET", url := c.bulk2_url ++ ("ingest/" ++ job_id),
           headers := c.headers, timeout := c._timeout, body := Body.noBody }]
    ∧ (get_ingest_successful_results c job_id fmt text).2
      = [{ method := "GET",
           url := c.bulk2_url ++ ("ingest/" ++ job_id ++ "/successfulResults"),
           headers := c.headers, timeout := c._timeout, body := Body.noBody }]
    ∧ (get_ingest_failed_results c job_id fmt text).2
      = [{ method := "GET",
           url := c.bulk2_url ++ ("ingest/" ++ job_id ++ "/failedResults"),
           headers := c.headers, timeout := c._timeout, body := Body.noBody }]
    ∧ (get_ingest_unprocessed_records c job_id fmt text).2
      = [{ method := "GET",
           url := c.bulk2_url ++ ("ingest/" ++ job_id ++ "/unprocessedrecords"),
           headers := c.headers, timeout := c._timeout, body := Body.noBody }] := by
  have hf : fmt = "dict" ∨ fmt = "reader" ∨ fmt = "csv" := by
    simpa [allowed_formats] using hfmt
  refine ⟨?_, ?_, rfl, ?_, ?_, rfl, rfl, rfl, ?_, ?_, ?_⟩
  · unfold create_job_query
    simp only [_make_request]
    split <;> rfl
  · unfold create_job_query
    simp only [_make_request]
    split <;> rfl
  · rcases hf with rfl | rfl | rfl <;> rfl
  · unfold create_job
    rw [if_neg hop]
    simp only [_make_request]
    split <;> rfl
  · rcases hf with rfl | rfl | rfl <;> rfl
  · rcases hf with rfl | rfl | rfl <;> rfl
  · rcases hf with rfl | rfl | rfl <;> rfl

/-- Claim C6 witness: the unprocessed-records getter at concrete inputs
GETs the exact lowercase `unprocessedrecords` path. -/
theorem C6_witness :
    (get_ingest_unprocessed_records (SfBulk.init "https://x/" []) "750F" "dict" "a\n1\n").2
      = [{ method := "GET", url := "https://x/ingest/750F/unprocessedrecords",
           headers := [], timeout := 30, body := Body.noBody }] :=
  (C6_endpoints (SfBulk.init "https://x/" []) "soql" "750F" "Account" "insert"
    "a\n1\n" "a\n1\n" "dict" none [] (by decide) (by decide)).2.2.2.2.2.2.2.2.2.2

/-- Claim C9 counterexample: `create_job` for operation `insert` with a
supplied non-empty external id field puts `externalIdFieldName` into the
creation body, refuting the claim that the field is absent for every
non-upsert operation. -/
theorem C9_counterexample :
    (create_job (SfBulk.init "https://x/" []) "Account" "insert" (some "Ext__c")
        [("id", PyVal.vStr "750C")]).2.map Request.body
      = [Body.jsonBody
          [("object", "Account"), ("operation", "insert"),
            ("externalIdFieldName", "Ext__c")]]
    ∧ ("externalIdFieldName", "Ext__c") ∈
        [("object", "Account"), ("operation", "insert"),
          ("externalIdFieldName", "Ext__c")] := by
  exact ⟨rfl, by decide⟩

/-- Claim C9 (amended): the creation body contains `externalIdFieldName`
iff the supplied `external_id_field` is non-None and non-empty, for any
operation; the named non-upsert wrappers supply none, so their bodies
omit it, and the upsert wrapper with a non-empty field always includes
it. -/
theorem C9_externalIdField_presence (c : SfBulk) (obj oper e : String)
    (ext : Option String) (resp : JobInfo)
    (hop : ¬((oper == "upsert") ∧ ¬ pyTruthyOptStr ext))
    (he : e ≠ "") :
    (create_job c obj oper ext resp).2.map Request.body
      = [Body.jsonBody ([("object", obj), ("operation", oper)] ++
          (if pyTruthyOptStr ext then [("externalIdFieldName", ext.getD "")] else []))]
    ∧ (create_job_insert c obj resp).2.map Request.body
      = [Body.jsonBody [("object", obj), ("operation", "insert")]]
    ∧ (create_job_update c obj resp).2.map Request.body
      = [Body.jsonBody [("object", obj), ("operation", "update")]]
    ∧ (create_job_delete c obj resp).2.map Request.body
      = [Body.jsonBody [("object", obj), ("operation", "delete")]]
    ∧ (create_job_hard_delete c obj resp).2.map Request.body
      = [Body.jsonBody [("object", obj), ("operation", "hardDelete")]]
    ∧ (create_job_upsert c obj e resp).2.map Request.body
      = [Body.jsonBody
          [("object", obj), ("operation", "upsert"), ("externalIdFieldName", e)]] := by
  refine ⟨?_, ?_, ?_, ?_, ?_, ?_⟩
  · unfold create_job
    rw [if_neg hop]
    simp only [_make_request]
    split_ifs with hb <;> split <;> rfl
  · unfold create_job_insert create_job
    rw [if_neg (by decide)]
    simp only [_make_request]
    split <;> rfl
  · unfold create_job_update create_job
    rw [if_neg (by decide)]
    simp only [_make_request]
    split <;> rfl
  · unfold create_job_delete create_job
    rw [if_neg (by decide)]
    simp only [_make_request]
    split <;> rfl
  · unfold create_job_hard_delete create_job
    rw [if_neg (by decide)]
    simp only [_make_request]
    split <;> rfl
  · unfold create_job_upsert create_job
    rw [if_neg (by simp [pyTruthyOptStr, he])]
    simp only [_make_request]
    split_ifs with hb
    · split <;> rfl
    · exact absurd (by simp [pyTruthyOptStr, he]) hb

/-- Claim C9 witness: the upsert wrapper at concrete inputs includes the
external id field in the body. -/
theorem C9_witness :
    (create_job_upsert (SfBulk.init "https://x/" []) "Account" "Ext__c"
        [("id", PyVal.vStr "750D")]).2.map Request.body
      = [Body.jsonBody
          [("object", "Account"), ("operation", "upsert"),
            ("externalIdFieldName", "Ext__c")]] :=
  (C9_externalIdField_presence (SfBulk.init "https://x/" []) "Account" "update"
    "Ext__c" none [("id", PyVal.vStr "750D")] (by decide) (by decide)).2.2.2.2.2

/-- Claim C8: per-call header overrides act on a request-scoped copy of
the default headers, and the shared default header map is unchanged after
any sequence of operations. -/
theorem C8_default_headers_never_mutated (c : SfBulk) (ops : List BulkOp)
    (method endpoint : String) (hs : List (String × String)) (body : Body)
    (job_id csv_data : String) :
    (ops.foldl applyOp c).headers = c.headers
    ∧ (_make_request c method endpoint (some hs) body).1 = c
    ∧ (_make_request c method endpoint (some hs) body).2.headers
        = dictUpdate (deepcopy c.headers) hs
    ∧ (_make_request c method endpoint none body).2.headers = c.headers
    ∧ (upload_job_data c job_id csv_data).1 = c
    ∧ (upload_job_data c job_id csv_data).2.map Request.headers
        = [dictSet c.headers "Content-Type" "text/csv"] := by
  refine ⟨by rw [foldl_applyOp], rfl, ?_, rfl, rfl, rfl⟩
  by_cases h : hs = []
  · subst h
    rfl
  · simp only [_make_request]
    rw [if_pos h]

/-- Claim C2: the client wait loops return the first polled snapshot whose
state is terminal, issue exactly one status call per polled snapshot up
to and including it (none after), and sleep the final interval (per-call,
or the client default when omitted) between consecutive calls; for the
sequence Queued, InProgress, InProgress, JobComplete exactly 4 status
calls occur. -/
theorem C2_wait_polls_until_terminal (c : SfBulk) (job_id : String)
    (interval : Option Nat) (ns : List JobInfo) (t : JobInfo) (rest : List JobInfo)
    (hns : ∀ i ∈ ns, infoTerminal i = Except.ok false)
    (ht : infoTerminal t = Except.ok true) :
    (poll_job c job_id (ns ++ t :: rest) interval).2
      = PollResult.done t
          (List.replicate (ns.length + 1)
            { method := "GET", url := c.bulk2_url ++ ("ingest/" ++ job_id),
              headers := c.headers, timeout := c._timeout, body := Body.noBody })
          (List.replicate ns.length (_get_final_interval c interval))
    ∧ (poll_job_query c job_id (ns ++ t :: rest) interval).2
      = PollResult.done t
          (List.replicate (ns.length + 1)
            { method := "GET", url := c.bulk2_url ++ ("query/" ++ job_id),
              headers := c.headers, timeout := c._timeout, body := Body.noBody })
          (List.replicate ns.length (_get_final_interval c interval))
    ∧ _get_final_interval c none = c._interval
    ∧ (∀ i, _get_final_interval c (some i) = i)
    ∧ (poll_job c job_id
          [[("state", PyVal.vStr "Queued")], [("state", PyVal.vStr "InProgress")],
            [("state", PyVal.vStr "InProgress")], [("state", PyVal.vStr "JobComplete")]]
          interval).2
      = PollResult.done [("state", PyVal.vStr "JobComplete")]
          (List.replicate 4
            { method := "GET", url := c.bulk2_url ++ ("ingest/" ++ job_id),
              headers := c.headers, timeout := c._timeout, body := Body.noBody })
          (List.replicate 3 (_get_final_interval c interval)) := by
  refine ⟨?_, ?_, rfl, fun i => rfl, ?_⟩
  · exact pollLoop_first_terminal _ (_get_final_interval c interval) ns t rest hns ht
  · exact pollLoop_first_terminal _ (_get_final_interval c interval) ns t rest hns ht
  · exact pollLoop_first_terminal _ (_get_final_interval c interval)
      [[("state", PyVal.vStr "Queued")], [("state", PyVal.vStr "InProgress")],
        [("state", PyVal.vStr "InProgress")]]
      [("state", PyVal.vStr "JobComplete")] [] (by decide) (by decide)

/-- Claim C2 witness: with one non-terminal snapshot, then a Failed
snapshot, then a further (ignored) snapshot, the ingest wait loop makes
exactly two status calls and one sleep of the per-call interval. -/
theorem C2_witness :
    (poll_job (SfBulk.init "https://x/" []) "750G"
        [[("state", PyVal.vStr "Queued")], [("state", PyVal.vStr "Failed")],
          [("state", PyVal.vStr "Queued")]] (some 2)).2
      = PollResult.done [("state", PyVal.vStr "Failed")]
          (List.replicate 2
            { method := "GET", url := "https://x/ingest/750G", headers := [],
              timeout := 30, body := Body.noBody })
          (List.replicate 1 2) :=
  (C2_wait_polls_until_terminal (SfBulk.init "https://x/" []) "750G" (some 2)
    [[("state", PyVal.vStr "Queued")]] [("state", PyVal.vStr "Failed")]
    [[("state", PyVal.vStr "Queued")]] (by decide) (by decide)).1

/-- Claim C1: a handle's `get_info` calls the client status operation for
its family, replaces the cached status wholesale with the fresh snapshot
and returns it; a handle's `wait` calls the client wait loop and, when it
returns a terminal snapshot, replaces the cache with it and returns it. -/
theorem C1_handle_refresh_wait (hq : SfBulkJobQuery) (hi : SfBulkJob)
    (fresh : JobInfo) (states : List JobInfo) (interval : Option Nat)
    (f1 f2 : JobInfo) (rs1 rs2 : List Request) (ss1 ss2 : List Nat)
    (hw1 : (SfBulk.query_wait hq._sf_bulk hq.id states interval).2
        = PollResult.done f1 rs1 ss1)
    (hw2 : (SfBulk.ingest_wait hi._sf_bulk hi.id states interval).2
        = PollResult.done f2 rs2 ss2) :
    hq.get_info fresh
      = (({ hq with _info := fresh }, fresh),
          (SfBulk.query_get_info hq._sf_bulk hq.id fresh).2)
    ∧ hi.get_info fresh
      = (({ hi with _info := fresh }, fresh),
          (SfBulk.ingest_get_info hi._sf_bulk hi.id fresh).2)
    ∧ hq.wait states interval
      = ({ hq with _info := f1 }, PollResult.done f1 rs1 ss1)
    ∧ hi.wait states interval
      = ({ hi with _info := f2 }, PollResult.done f2 rs2 ss2) := by
  refine ⟨rfl, rfl, ?_, ?_⟩
  · unfold SfBulkJobQuery.wait
    rw [hw1]
  · unfold SfBulkJob.wait
    rw [hw2]

/-- Claim C1 witness: concrete query and ingest handles waiting on a trace
whose first snapshot is terminal replace their caches with it and return
it, with one status request issued through the client. -/
theorem C1_witness :
    SfBulkJobQuery.wait
        ⟨SfBulk.init "https://x/" [("Authorization", "Bearer t")], "750Q",
          [("state", PyVal.vStr "UploadComplete")]⟩
        [[("state", PyVal.vStr "JobComplete")]] none
      = (⟨SfBulk.init "https://x/" [("Authorization", "Bearer t")], "750Q",
            [("state", PyVal.vStr "JobComplete")]⟩,
          PollResult.done [("state", PyVal.vStr "JobComplete")]
            [{ method := "GET", url := "https://x/query/750Q",
               headers := [("Authorization", "Bearer t")], timeout := 30,
               body := Body.noBody }] [])
    ∧ SfBulkJob.wait
        ⟨SfBulk.init "https://x/" [("Authorization", "Bearer t")], "750I",
          [("state", PyVal.vStr "Open")]⟩
        [[("state", PyVal.vStr "JobComplete")]] none
      = (⟨SfBulk.init "https://x/" [("Authorization", "Bearer t")], "750I",
            [("state", PyVal.vStr "JobComplete")]⟩,
          PollResult.done [("state", PyVal.vStr "JobComplete")]
            [{ method := "GET", url := "https://x/ingest/750I",
               headers := [("Authorization", "Bearer t")], timeout := 30,
               body := Body.noBody }] []) :=
  ⟨(C1_handle_refresh_wait
      ⟨SfBulk.init "https://x/" [("Authorization", "Bearer t")], "750Q",
        [("state", PyVal.vStr "UploadComplete")]⟩
      ⟨SfBulk.init "https://x/" [("Authorization", "Bearer t")], "750I",
        [("state", PyVal.vStr "Open")]⟩
      [] [[("state", PyVal.vStr "JobComplete")]] none
      [("state", PyVal.vStr "JobComplete")] [("state", PyVal.vStr "JobComplete")]
      [{ method := "GET", url := "https://x/query/750Q",
         headers := [("Authorization", "Bearer t")], timeout := 30,
         body := Body.noBody }]
      [{ method := "GET", url := "https://x/ingest/750I",
         headers := [("Authorization", "Bearer t")], timeout := 30,
         body := Body.noBody }]
      [] [] rfl rfl).2.2.1,
    (C1_handle_refresh_wait
      ⟨SfBulk.init "https://x/" [("Authorization", "Bearer t")], "750Q",
        [("state", PyVal.vStr "UploadComplete")]⟩
      ⟨SfBulk.init "https://x/" [("Authorization", "Bearer t")], "750I",
        [("state", PyVal.vStr "Open")]⟩
      [] [[("state", PyVal.vStr "JobComplete")]] none
      [("state", PyVal.vStr "JobComplete")] [("state", PyVal.vStr "JobComplete")]
      [{ method := "GET", url := "https://x/query/750Q",
         headers := [("Authorization", "Bearer t")], timeout := 30,
         body := Body.noBody }]
      [{ method := "GET", url := "https://x/ingest/750I",
         headers := [("Authorization", "Bearer t")], timeout := 30,
         body := Body.noBody }]
      [] [] rfl rfl).2.2.2⟩

end CSS
